import Mathlib

/-!
Shallow embedding of the notiboost-com/browser-sdk client (src/index.ts).

The transport core `NotiBoostClient.request` is modelled as a pure function
over an environment `env : Nat → AttemptOutcome` that says, for each
0-indexed attempt, what the network does (a transport-level failure or an
HTTP response).  The function returns the trace of observable effects
(fetch attempts and sleeps, in order) together with the final outcome
(returned body, thrown error, or the dead `throw lastError` after the loop).

JavaScript-specific behaviour is modelled explicitly: truthiness (`x || d`,
`!x`, `if (data ...)`), `parseInt(s, 10)` returning NaN on an unparseable
string (and `setTimeout` coercing a NaN/negative delay to 0), the JSON parse
fallback `response.json().catch(() => ({}))`, and object-spread header
merging.
-/

namespace NotiBoost

/-- JSON values as produced by `response.json()`.  Numbers are modelled as
integers (no claim touches fractional numeric payloads). -/
inductive Json where
  | null
  | bool (b : Bool)
  | num (n : Int)
  | str (s : String)
  | arr (elems : List Json)
  | obj (fields : List (String × Json))

/-- JavaScript truthiness of a JSON value (`undefined` is represented by an
absent `Option` at the access site, not by a `Json` constructor). -/
def jsTruthy : Json → Bool
  | .null => false
  | .bool b => b
  | .num n => n != 0
  | .str s => s != ""
  | .arr _ => true
  | .obj _ => true

/-- Property access `j[key]`: `some` value on an object that has the key,
otherwise `undefined` (`none`). -/
def jsGet (j : Json) (key : String) : Option Json :=
  match j with
  | .obj fields => (fields.find? (fun p => p.1 == key)).map (fun p => p.2)
  | _ => none

mutual

/-- JavaScript `String(v)` conversion of a JSON value (used by the `Error`
constructor on the `message` argument). -/
def jsToString : Json → String
  | .null => "null"
  | .bool b => if b then "true" else "false"
  | .num n => toString n
  | .str s => s
  | .arr xs => jsJoinElems xs
  | .obj _ => "[object Object]"

/-- `Array.prototype.join(",")`: null elements render as the empty string. -/
def jsJoinElems : List Json → String
  | [] => ""
  | [Json.null] => ""
  | [j] => jsToString j
  | Json.null :: rest => "," ++ jsJoinElems rest
  | j :: rest => jsToString j ++ "," ++ jsJoinElems rest

end

/-- JavaScript whitespace skipped by `parseInt`. -/
def jsWhitespace (c : Char) : Bool :=
  c == ' ' || c == '\t' || c == '\n' || c == '\r' || c == '\x0b' || c == '\x0c'

/-- Accumulate a list of decimal digit characters into a natural number. -/
def digitsToNat (ds : List Char) : Nat :=
  ds.foldl (fun acc c => acc * 10 + (c.toNat - '0'.toNat)) 0

/-- `parseInt(s, 10)`: skip leading whitespace, an optional sign, then the
longest prefix of decimal digits; `none` models NaN (no digits found). -/
def parseIntJS (s : String) : Option Int :=
  let cs := s.toList.dropWhile jsWhitespace
  let signAndRest : Int × List Char :=
    match cs with
    | '-' :: r => (-1, r)
    | '+' :: r => (1, r)
    | r => (1, r)
  let ds := signAndRest.2.takeWhile Char.isDigit
  if ds.isEmpty then none else some (signAndRest.1 * (digitsToNat ds : Int))

/-- The string fed to `parseInt` in the 429 branch:
`response.headers.get('Retry-After') || '1'`.  A missing header yields
`null` and an empty header value is falsy, so both give `"1"`. -/
def retryAfterInput (h : Option String) : String :=
  match h with
  | none => "1"
  | some s => if s == "" then "1" else s

/-- Effective duration in milliseconds of `this.sleep(retryAfter * 1000)` in
the 429 branch.  `parseInt` of an unparseable header is NaN, and
`setTimeout` coerces a NaN delay to 0; a negative delay is clamped to 0 as
well (`Int.toNat`). -/
def sleepDelayMs (h : Option String) : Nat :=
  match parseIntJS (retryAfterInput h) with
  | some n => (n * 1000).toNat
  | none => 0

/-- `responseData.message || ‹HTTP status›`, then `String(...)` applied by
the `Error` constructor: the server-supplied `message` field is used when
present and truthy, otherwise the generic `"HTTP <status>"` string. -/
def errMessage (responseData : Json) (status : Nat) : String :=
  match jsGet responseData "message" with
  | some m => if jsTruthy m then jsToString m else "HTTP " ++ toString status
  | none => "HTTP " ++ toString status

/-- A network-level failure of one attempt: the per-attempt timeout firing
(`AbortController.abort`, surfacing as an `AbortError` rejection of
`fetch`) or any other transport failure (DNS, connection reset, ...). -/
inductive TransportError where
  | timeout
  | network (message : String)

/-- An error value thrown by `request`: a `NotiBoostError` (message, status
code, parsed response body) or a raw transport-level failure propagated
unchanged. -/
inductive ThrownError where
  | api (message : String) (statusCode : Nat) (response : Json)
  | transport (e : TransportError)

/-- Final outcome of `request`: a returned parsed body, a thrown error, or
the `throw lastError` after the loop (shown unreachable in `C3_...`). -/
inductive RequestResult where
  | success (body : Json)
  | thrown (e : ThrownError)
  | loopExit (lastError : Option ThrownError)

/-- `true` exactly when the outcome is a normal return or a thrown error,
i.e. not the dead `throw lastError` fall-through after the loop. -/
def isSettled : RequestResult → Bool
  | .success _ => true
  | .thrown _ => true
  | .loopExit _ => false

/-- What the environment does on one attempt: the `fetch` either rejects
with a transport failure, or yields a response with a status code, an
optional `Retry-After` header value, and the outcome of `response.json()`
(`none` when the body is absent or unparseable). -/
inductive AttemptOutcome where
  | netFailure (e : TransportError)
  | response (status : Nat) (retryAfter : Option String) (rawBody : Option Json)

/-- An observable effect of `request`: one `fetch` attempt (with the exact
method, url, headers and serialized body it was given) or one sleep. -/
inductive TraceEvent where
  | attempt (method url : String) (headers : List (String × String)) (body : Option Json)
  | sleep (ms : Nat)

/-- `true` on a fetch attempt, `false` on a sleep. -/
def isAttemptEvent : TraceEvent → Bool
  | .attempt _ _ _ _ => true
  | .sleep _ => false

/-- Number of network attempts recorded in a trace. -/
def attemptCount (tr : List TraceEvent) : Nat :=
  (tr.filter isAttemptEvent).length

/-- Number of sleeps recorded in a trace. -/
def sleepCount (tr : List TraceEvent) : Nat :=
  (tr.filter (fun e => !isAttemptEvent e)).length

/-- Resolved client configuration (the private fields set by the
constructor). -/
structure ClientCfg where
  apiKey : String
  baseURL : String
  timeout : Nat
  retries : Nat

/-- Arguments of one `request` call: method, path, `data` (`none` models the
`null` default) and `options.headers` (`[]` models an absent options
object). -/
structure RequestSpec where
  method : String
  path : String
  data : Option Json
  extraHeaders : List (String × String)

/-- Object-spread merge `{...base, ...extra}` over string-keyed records:
keys of `base` in order with values overridden by `extra`, then the fresh
keys of `extra`. -/
def spreadMerge (base extra : List (String × String)) : List (String × String) :=
  (base.map fun p =>
    match extra.find? (fun q => q.1 == p.1) with
    | some q => (p.1, q.2)
    | none => p) ++
  extra.filter (fun q => base.all (fun p => p.1 != q.1))

/-- The headers of every attempt:
`{'Authorization': Bearer ..., 'Content-Type': application/json, ...options.headers}`. -/
def requestHeaders (cfg : ClientCfg) (req : RequestSpec) : List (String × String) :=
  spreadMerge
    [("Authorization", "Bearer " ++ cfg.apiKey), ("Content-Type", "application/json")]
    req.extraHeaders

/-- The body attached to every attempt:
`if (data && (method === 'POST' || method === 'PUT')) body = JSON.stringify(data)`.
The trace records the JSON value that is stringified. -/
def requestBody (req : RequestSpec) : Option Json :=
  match req.data with
  | some d =>
      if jsTruthy d && (req.method == "POST" || req.method == "PUT") then some d else none
  | none => none

/-- The trace event of one `fetch(url, fetchOptions)` call; `url`, `headers`
and the body are computed once before the loop from immutable locals, so
every attempt of one `request` call records the same event. -/
def fetchEvent (cfg : ClientCfg) (req : RequestSpec) : TraceEvent :=
  .attempt req.method (cfg.baseURL ++ req.path) (requestHeaders cfg req) (requestBody req)

/-- The retry loop of `NotiBoostClient.request`, from a given 0-indexed
`attempt` with `fuel` loop iterations structurally remaining and the
current `lastError`.  The loop body:
* `fetch` rejects (`netFailure`): the catch sets `lastError`; with
  `attempt < retries` it sleeps `2^attempt` seconds and continues,
  otherwise it rethrows the raw failure;
* a response with 2xx status returns the parsed body
  (`response.json().catch(() => ({}))`);
* a 429 with `attempt < retries` sleeps `sleepDelayMs` and continues;
* any other status throws a `NotiBoostError` (caught and immediately
  rethrown by the catch, since it is a `NotiBoostError`).
Fuel 0 is the loop exit `throw lastError`. -/
def requestLoop (cfg : ClientCfg) (req : RequestSpec) (env : Nat → AttemptOutcome) :
    Nat → Nat → Option ThrownError → List TraceEvent × RequestResult
  | _, 0, le => ([], .loopExit le)
  | attempt, fuel + 1, le =>
    match env attempt with
    | .netFailure e =>
      if attempt < cfg.retries then
        let rest := requestLoop cfg req env (attempt + 1) fuel (some (.transport e))
        (fetchEvent cfg req :: .sleep (2 ^ attempt * 1000) :: rest.1, rest.2)
      else
        ([fetchEvent cfg req], .thrown (.transport e))
    | .response status retryAfter rawBody =>
      let responseData := rawBody.getD (Json.obj [])
      if 200 ≤ status ∧ status < 300 then
        ([fetchEvent cfg req], .success responseData)
      else if status = 429 ∧ attempt < cfg.retries then
        let rest := requestLoop cfg req env (attempt + 1) fuel le
        (fetchEvent cfg req :: .sleep (sleepDelayMs retryAfter) :: rest.1, rest.2)
      else
        ([fetchEvent cfg req],
         .thrown (.api (errMessage responseData status) status responseData))

/-- `NotiBoostClient.request`: run the loop
`for (attempt = 0; attempt <= retries; attempt++)`, i.e. `retries + 1`
iterations starting at attempt 0 with `lastError` undefined. -/
def request (cfg : ClientCfg) (req : RequestSpec) (env : Nat → AttemptOutcome) :
    List TraceEvent × RequestResult :=
  requestLoop cfg req env 0 (cfg.retries + 1) none

/-- JavaScript falsiness of an optional string value: `undefined` (`none`)
and the empty string are falsy. -/
def jsFalsyStr : Option String → Bool
  | none => true
  | some s => s == ""

/-- The raw `NotiBoostConfig` argument of the constructor; every field may
be absent at run time. -/
structure NotiBoostConfig where
  apiKey : Option String
  baseURL : Option String
  timeout : Option Nat
  retries : Option Nat

/-- `v || d` on an optional string: the default is taken when the value is
absent or empty (falsy). -/
def orElseStr (v : Option String) (d : String) : String :=
  match v with
  | some s => if s == "" then d else s
  | none => d

/-- `v || d` on an optional number: the default is taken when the value is
absent or 0 (falsy). -/
def orElseNat (v : Option Nat) (d : Nat) : Nat :=
  match v with
  | some n => if n == 0 then d else n
  | none => d

/-- `NotiBoostClient`'s constructor: throws `'API key is required'` when
`!config.apiKey` (absent or empty), otherwise resolves the configuration
with the falsy-defaulting `||` operators.  It performs no network call:
its codomain contains no `TraceEvent`s. -/
def mkClient (c : NotiBoostConfig) : Except String ClientCfg :=
  if jsFalsyStr c.apiKey then .error "API key is required"
  else .ok ⟨c.apiKey.getD "", orElseStr c.baseURL "https://api.notiboost.com",
            orElseNat c.timeout 30000, orElseNat c.retries 3⟩

/-- An `Event` payload as it exists at run time; `occurred_at` is declared
`string` in the source interface but may be absent in practice, which is
why `ingest` checks it. -/
structure Event where
  event_name : String
  event_id : String
  occurred_at : Option String
  user_id : String
  properties : List (String × Json)

/-- An instant of the JavaScript clock, as broken down by `Date` (UTC
fields). -/
structure JsDate where
  year : Nat
  month : Nat
  day : Nat
  hour : Nat
  minute : Nat
  second : Nat
  ms : Nat

/-- The ASCII digit character of `n % 10`. -/
def digitChar (n : Nat) : Char :=
  Char.ofNat (48 + n % 10)

/-- The 24 characters `YYYY-MM-DDTHH:mm:ss.sssZ` of the ISO 8601 rendering
of an instant. -/
def isoChars (d : JsDate) : List Char :=
  [digitChar (d.year / 1000), digitChar (d.year / 100), digitChar (d.year / 10),
   digitChar d.year, '-', digitChar (d.month / 10), digitChar d.month, '-',
   digitChar (d.day / 10), digitChar d.day, 'T', digitChar (d.hour / 10),
   digitChar d.hour, ':', digitChar (d.minute / 10), digitChar d.minute, ':',
   digitChar (d.second / 10), digitChar d.second, '.', digitChar (d.ms / 100),
   digitChar (d.ms / 10), digitChar d.ms, 'Z']

/-- Model of the ECMAScript built-in `Date.prototype.toISOString` for
instants in the standard 0–9999 year range: the 24-character
`YYYY-MM-DDTHH:mm:ss.sssZ` form (each field rendered by its decimal
digits). -/
def toISOString (d : JsDate) : String :=
  String.mk (isoChars d)

/-- Checks that a string has the exact `YYYY-MM-DDTHH:mm:ss.sssZ` ISO 8601
timestamp shape. -/
def isIsoTimestamp (s : String) : Bool :=
  match s.data with
  | [y1, y2, y3, y4, s1, m1, m2, s2, d1, d2, t, h1, h2, c1, n1, n2, c2, e1, e2,
     p, f1, f2, f3, z] =>
    y1.isDigit && y2.isDigit && y3.isDigit && y4.isDigit && s1 == '-' &&
    m1.isDigit && m2.isDigit && s2 == '-' && d1.isDigit && d2.isDigit &&
    t == 'T' && h1.isDigit && h2.isDigit && c1 == ':' && n1.isDigit &&
    n2.isDigit && c2 == ':' && e1.isDigit && e2.isDigit && p == '.' &&
    f1.isDigit && f2.isDigit && f3.isDigit && z == 'Z'
  | _ => false

/-- The defaulting step of `EventsClient.ingest`:
`if (!event.occurred_at) event.occurred_at = new Date().toISOString()`.
The check is JavaScript falsiness, so an absent and an empty `occurred_at`
are both overwritten. -/
def fillOccurredAt (e : Event) (now : JsDate) : Event :=
  if jsFalsyStr e.occurred_at then { e with occurred_at := some (toISOString now) } else e

/-- `EventsClient.ingest`: default `occurred_at`, then delegate to the
transport core as `('POST', '/api/v1/events', event)`; the triple returned
here is exactly `(method, path, data)` handed to `request`. -/
def ingest (e : Event) (now : JsDate) : String × String × Event :=
  ("POST", "/api/v1/events", fillOccurredAt e now)

/-!  Helper lemmas about the retry loop. -/

/-- Every loop run with fuel left begins with a fetch of the one immutable
request. -/
theorem requestLoop_head (cfg : ClientCfg) (req : RequestSpec)
    (env : Nat → AttemptOutcome) (a f : Nat) (le : Option ThrownError) (hf : 0 < f) :
    ((requestLoop cfg req env a f le).1).head? = some (fetchEvent cfg req) := by
  obtain ⟨g, rfl⟩ : ∃ g, f = g + 1 := ⟨f - 1, by omega⟩
  cases h : env a with
  | netFailure e =>
    simp only [requestLoop, h]
    split <;> rfl
  | response status hdr body =>
    simp only [requestLoop, h]
    split
    · rfl
    · split <;> rfl

/-- The trace of a loop run with `f` units of fuel holds at most `f` fetch
attempts. -/
theorem attemptCount_requestLoop (cfg : ClientCfg) (req : RequestSpec)
    (env : Nat → AttemptOutcome) :
    ∀ (f a : Nat) (le : Option ThrownError),
      attemptCount (requestLoop cfg req env a f le).1 ≤ f := by
  intro f
  induction f with
  | zero => intro a le; simp [requestLoop, attemptCount]
  | succ f ih =>
    intro a le
    cases h : env a with
    | netFailure e =>
      simp only [requestLoop, h]
      split
      · have := ih (a + 1) (some (.transport e))
        simp only [attemptCount, List.filter, isAttemptEvent, fetchEvent,
          List.length_cons] at this ⊢
        omega
      · simp [attemptCount, isAttemptEvent, fetchEvent]
    | response status hdr body =>
      simp only [requestLoop, h]
      split
      · simp [attemptCount, isAttemptEvent, fetchEvent]
      · split
        · have := ih (a + 1) le
          simp only [attemptCount, List.filter, isAttemptEvent, fetchEvent,
            List.length_cons] at this ⊢
          omega
        · simp [attemptCount, isAttemptEvent, fetchEvent]

/-- Under the loop invariant `a + f = retries + 1` with fuel left, the loop
never reaches the dead `throw lastError` exit: it settles with a returned
body or a thrown error. -/
theorem settled_requestLoop (cfg : ClientCfg) (req : RequestSpec)
    (env : Nat → AttemptOutcome) :
    ∀ (f a : Nat) (le : Option ThrownError),
      a + f = cfg.retries + 1 → 0 < f →
      isSettled (requestLoop cfg req env a f le).2 = true := by
  intro f
  induction f with
  | zero => intro a le hsum hf; omega
  | succ f ih =>
    intro a le hsum hf
    cases h : env a with
    | netFailure e =>
      simp only [requestLoop, h]
      split
      · next hlt => simpa using ih (a + 1) (some (.transport e)) (by omega) (by omega)
      · rfl
    | response status hdr body =>
      simp only [requestLoop, h]
      split
      · rfl
      · split
        · next hc =>
          obtain ⟨-, hlt⟩ := hc
          simpa using ih (a + 1) le (by omega) (by omega)
        · rfl

/-- The falsy-or `orElseNat` of a positive default is positive. -/
theorem orElseNat_pos (v : Option Nat) (d : Nat) (hd : 0 < d) : 0 < orElseNat v d := by
  cases v with
  | none => simpa [orElseNat] using hd
  | some n =>
    simp only [orElseNat, beq_iff_eq]
    split
    · exact hd
    · omega

/-- `digitChar` always yields an ASCII decimal digit. -/
theorem digitChar_isDigit (n : Nat) : (digitChar n).isDigit = true := by
  have h : n % 10 < 10 := Nat.mod_lt _ (by omega)
  unfold digitChar
  generalize hk : n % 10 = k at h ⊢
  interval_cases k <;> decide

/-- The ISO rendering of an instant is never the empty string. -/
theorem toISOString_ne_empty (d : JsDate) : toISOString d ≠ "" := by
  intro h
  have h2 := congrArg String.data h
  simp [toISOString, isoChars] at h2

/-- The ISO rendering of an instant has the ISO 8601 timestamp shape. -/
theorem isIsoTimestamp_toISOString (d : JsDate) : isIsoTimestamp (toISOString d) = true := by
  simp [isIsoTimestamp, toISOString, isoChars, digitChar_isDigit]

/-- A sample resolved configuration (all-default fields, key `"key"`). -/
def sampleCfg : ClientCfg :=
  ⟨"key", "https://api.notiboost.com", 30000, 3⟩

/-- A sample GET request with no data and no extra headers. -/
def sampleReq : RequestSpec :=
  ⟨"GET", "/api/v1/users/u1", none, []⟩

/-- Claim C1 (amended): for a 429 response on attempt `a` with attempts
remaining, `request` sleeps `sleepDelayMs hdr` milliseconds — 1000 ms
(the 1-second default) when the `Retry-After` header is absent (and also
when it is the empty string), `n * 1000` ms clamped at 0 when the header
parses to `n`, but 0 ms (not the 1-second default the claim states) when
the header is present and unparseable, since `parseInt` yields NaN and
`setTimeout` coerces a NaN delay to 0 — and then issues exactly one more
attempt with identical method, path, headers and body (the continuation's
first trace event is the same `fetchEvent`). -/
theorem C1_rate_limit_retry (cfg : ClientCfg) (req : RequestSpec)
    (env : Nat → AttemptOutcome) (a f : Nat) (le : Option ThrownError)
    (hdr : Option String) (body : Option Json)
    (ha : a < cfg.retries) (henv : env a = .response 429 hdr body) :
    requestLoop cfg req env a (f + 1) le =
      (fetchEvent cfg req :: TraceEvent.sleep (sleepDelayMs hdr) ::
        (requestLoop cfg req env (a + 1) f le).1,
       (requestLoop cfg req env (a + 1) f le).2) ∧
    (hdr = none → sleepDelayMs hdr = 1000) ∧
    (0 < f →
      ((requestLoop cfg req env (a + 1) f le).1).head? = some (fetchEvent cfg req)) := by
  refine ⟨?_, ?_, ?_⟩
  · simp [requestLoop, henv, ha]
  · intro h
    subst h
    rfl
  · intro hf
    exact requestLoop_head cfg req env (a + 1) f le hf

/-- Claim C1 witness: a parseable `Retry-After: 5` header on the first
attempt, with the default retry budget, sleeps `sleepDelayMs (some "5")`
milliseconds and retries. -/
theorem C1_rate_limit_retry_witness :
    0 < sampleCfg.retries ∧
    requestLoop sampleCfg sampleReq
        (fun n => if n = 0 then .response 429 (some "5") none
                  else .response 200 none none) 0 (1 + 1) none =
      (fetchEvent sampleCfg sampleReq :: TraceEvent.sleep (sleepDelayMs (some "5")) ::
        (requestLoop sampleCfg sampleReq
          (fun n => if n = 0 then .response 429 (some "5") none
                    else .response 200 none none) 1 1 none).1,
       (requestLoop sampleCfg sampleReq
          (fun n => if n = 0 then .response 429 (some "5") none
                    else .response 200 none none) 1 1 none).2) :=
  ⟨by decide,
   (C1_rate_limit_retry sampleCfg sampleReq _ 0 1 none (some "5") none (by decide) rfl).1⟩

/-- Claim C1 counterexample: a 429 whose `Retry-After` header is the
unparseable string `"soon"` is retried after a 0 ms sleep, not after the
1-second default the claim states for an unparseable header. -/
theorem C1_counterexample :
    (request ⟨"key", "https://api.notiboost.com", 30000, 3⟩
        ⟨"GET", "/api/v1/users/u1", none, []⟩
        (fun n => if n = 0 then .response 429 (some "soon") none
                  else .response 200 none none)).1 =
      [fetchEvent ⟨"key", "https://api.notiboost.com", 30000, 3⟩
         ⟨"GET", "/api/v1/users/u1", none, []⟩,
       TraceEvent.sleep 0,
       fetchEvent ⟨"key", "https://api.notiboost.com", 30000, 3⟩
         ⟨"GET", "/api/v1/users/u1", none, []⟩] ∧
    TraceEvent.sleep 0 ≠ TraceEvent.sleep 1000 := by
  refine ⟨rfl, ?_⟩
  simp

/-- Claim C2 (amended): a response whose status is neither in [200,300) nor
429 makes `request` throw a `NotiBoostError` immediately — exactly one
attempt from that point and no sleeps, regardless of the remaining budget —
carrying that status code and the parsed body; the error message is the
server-supplied `message` field when it is present and truthy (for
instance a non-empty string), and the generic `"HTTP <status>"` string
when the field is absent or falsy (for instance the empty string). -/
theorem C2_fatal_status (cfg : ClientCfg) (req : RequestSpec)
    (env : Nat → AttemptOutcome) (a f : Nat) (le : Option ThrownError)
    (status : Nat) (hdr : Option String) (body : Option Json)
    (henv : env a = .response status hdr body)
    (h2 : ¬(200 ≤ status ∧ status < 300)) (h429 : status ≠ 429) :
    requestLoop cfg req env a (f + 1) le =
      ([fetchEvent cfg req],
       .thrown (.api (errMessage (body.getD (Json.obj [])) status) status
                  (body.getD (Json.obj [])))) ∧
    (∀ s, jsGet (body.getD (Json.obj [])) "message" = some (Json.str s) → s ≠ "" →
      errMessage (body.getD (Json.obj [])) status = s) ∧
    (jsGet (body.getD (Json.obj [])) "message" = none →
      errMessage (body.getD (Json.obj [])) status = "HTTP " ++ toString status) := by
  refine ⟨?_, ?_, ?_⟩
  · simp [requestLoop, henv, h2, h429]
  · intro s hs hne
    simp [errMessage, hs, jsTruthy, jsToString, hne]
  · intro hnone
    simp [errMessage, hnone]

/-- Claim C2 witness: a 500 with body `{"message": "boom"}` on the first
attempt of the default budget throws immediately. -/
theorem C2_fatal_status_witness :
    ¬(200 ≤ 500 ∧ 500 < 300) ∧ (500 : Nat) ≠ 429 ∧
    requestLoop sampleCfg sampleReq
        (fun _ => .response 500 none (some (Json.obj [("message", Json.str "boom")])))
        0 (3 + 1) none =
      ([fetchEvent sampleCfg sampleReq],
       .thrown (.api
          (errMessage ((some (Json.obj [("message", Json.str "boom")])).getD (Json.obj [])) 500)
          500
          ((some (Json.obj [("message", Json.str "boom")])).getD (Json.obj [])))) :=
  ⟨by decide, by decide,
   (C2_fatal_status sampleCfg sampleReq _ 0 3 none 500 none
      (some (Json.obj [("message", Json.str "boom")])) rfl (by decide) (by decide)).1⟩

/-- Claim C2 counterexample: a 404 whose body carries the present (but
falsy) field `message = ""` produces the error message `"HTTP 404"`, not
the server-supplied empty-string message the claim requires for a present
field. -/
theorem C2_counterexample :
    (request ⟨"key", "https://api.notiboost.com", 30000, 3⟩
        ⟨"GET", "/api/v1/users/u1", none, []⟩
        (fun _ => .response 404 none (some (Json.obj [("message", Json.str "")])))).2 =
      .thrown (.api "HTTP 404" 404 (Json.obj [("message", Json.str "")])) ∧
    ("HTTP 404" : String) ≠ "" := by
  refine ⟨rfl, ?_⟩
  decide

/-- Claim C3: every `request` call records at most `retries + 1` fetch
attempts in its (strictly sequential) trace and always settles with a
returned parsed body or a thrown error — the `throw lastError`
fall-through after the loop is unreachable — and a 429 received on attempt
`retries` (zero attempts remaining) throws a `NotiBoostError` whose status
code is 429. -/
theorem C3_retry_budget (cfg : ClientCfg) (req : RequestSpec)
    (env : Nat → AttemptOutcome) :
    attemptCount (request cfg req env).1 ≤ cfg.retries + 1 ∧
    isSettled (request cfg req env).2 = true ∧
    (∀ (f : Nat) (le : Option ThrownError) (hdr : Option String) (body : Option Json),
      env cfg.retries = .response 429 hdr body →
      (requestLoop cfg req env cfg.retries (f + 1) le).2 =
        .thrown (.api (errMessage (body.getD (Json.obj [])) 429) 429
                   (body.getD (Json.obj [])))) := by
  refine ⟨?_, ?_, ?_⟩
  · simpa [request] using attemptCount_requestLoop cfg req env (cfg.retries + 1) 0 none
  · simpa [request] using
      settled_requestLoop cfg req env (cfg.retries + 1) 0 none (by omega) (by omega)
  · intro f le hdr body henv
    simp [requestLoop, henv]

/-- Claim C3 witness: with the default budget, an environment answering 429
forever throws a status-429 `NotiBoostError` on the final attempt. -/
theorem C3_retry_budget_witness :
    ((fun _ => AttemptOutcome.response 429 none none) sampleCfg.retries
       = AttemptOutcome.response 429 none none) ∧
    (requestLoop sampleCfg sampleReq (fun _ => .response 429 none none)
        sampleCfg.retries (0 + 1) none).2 =
      .thrown (.api (errMessage ((none : Option Json).getD (Json.obj [])) 429) 429
                 ((none : Option Json).getD (Json.obj []))) :=
  ⟨rfl, (C3_retry_budget sampleCfg sampleReq _).2.2 0 none none none rfl⟩

/-- Claim C4: a network-level failure on 0-indexed attempt `a` with
attempts remaining — including the per-attempt timeout,
`TransportError.timeout`, which the catch block treats exactly like any
other transport failure because it is not a `NotiBoostError` — makes
`request` sleep `2 ^ a` seconds (1 s, 2 s, 4 s, ...) and then issue
exactly one more identical attempt. -/
theorem C4_backoff_retry (cfg : ClientCfg) (req : RequestSpec)
    (env : Nat → AttemptOutcome) (a f : Nat) (le : Option ThrownError)
    (e : TransportError)
    (ha : a < cfg.retries) (henv : env a = .netFailure e) :
    requestLoop cfg req env a (f + 1) le =
      (fetchEvent cfg req :: TraceEvent.sleep (2 ^ a * 1000) ::
        (requestLoop cfg req env (a + 1) f (some (.transport e))).1,
       (requestLoop cfg req env (a + 1) f (some (.transport e))).2) ∧
    (0 < f →
      ((requestLoop cfg req env (a + 1) f (some (.transport e))).1).head? =
        some (fetchEvent cfg req)) := by
  refine ⟨?_, ?_⟩
  · simp [requestLoop, henv, ha]
  · intro hf
    exact requestLoop_head cfg req env (a + 1) f (some (.transport e)) hf

/-- Claim C4 witness: a timeout on attempt 0 of the default budget sleeps
`2 ^ 0 * 1000` ms (1 second) and retries. -/
theorem C4_backoff_retry_witness :
    0 < sampleCfg.retries ∧
    requestLoop sampleCfg sampleReq (fun _ => .netFailure .timeout) 0 (1 + 1) none =
      (fetchEvent sampleCfg sampleReq :: TraceEvent.sleep (2 ^ 0 * 1000) ::
        (requestLoop sampleCfg sampleReq (fun _ => .netFailure .timeout) 1 1
          (some (.transport .timeout))).1,
       (requestLoop sampleCfg sampleReq (fun _ => .netFailure .timeout) 1 1
          (some (.transport .timeout))).2) :=
  ⟨by decide,
   (C4_backoff_retry sampleCfg sampleReq _ 0 1 none .timeout (by decide) rfl).1⟩

/-- Claim C5: a response with status in [200,300) on any attempt makes
`request` return the parsed body (`response.json()` outcome, the empty
object when the body is absent or unparseable) with exactly one further
fetch and no further sleep; a 2xx on attempt 0 makes the whole call one
single attempt with no sleeping at all. -/
theorem C5_success_single_attempt (cfg : ClientCfg) (req : RequestSpec)
    (env : Nat → AttemptOutcome) (a f : Nat) (le : Option ThrownError)
    (status : Nat) (hdr : Option String) (body : Option Json)
    (henv : env a = .response status hdr body)
    (hlo : 200 ≤ status) (hhi : status < 300) :
    requestLoop cfg req env a (f + 1) le =
      ([fetchEvent cfg req], .success (body.getD (Json.obj []))) ∧
    (env 0 = .response status hdr body →
      request cfg req env = ([fetchEvent cfg req], .success (body.getD (Json.obj []))) ∧
      attemptCount (request cfg req env).1 = 1 ∧
      sleepCount (request cfg req env).1 = 0) := by
  refine ⟨?_, ?_⟩
  · simp [requestLoop, henv, hlo, hhi]
  · intro h0
    have hreq : request cfg req env = ([fetchEvent cfg req], .success (body.getD (Json.obj []))) := by
      simp [request, requestLoop, h0, hlo, hhi]
    refine ⟨hreq, ?_, ?_⟩
    · rw [hreq]
      simp [attemptCount, isAttemptEvent, fetchEvent]
    · rw [hreq]
      simp [sleepCount, isAttemptEvent, fetchEvent]

/-- Claim C5 witness: a 200 with body `{"success": true}` on attempt 0
returns it in one attempt with no sleeping. -/
theorem C5_success_single_attempt_witness :
    200 ≤ 200 ∧ 200 < 300 ∧
    (request sampleCfg sampleReq
        (fun _ => .response 200 none (some (Json.obj [("success", Json.bool true)]))) =
      ([fetchEvent sampleCfg sampleReq],
       .success ((some (Json.obj [("success", Json.bool true)])).getD (Json.obj []))) ∧
     attemptCount (request sampleCfg sampleReq
        (fun _ => .response 200 none (some (Json.obj [("success", Json.bool true)])))).1 = 1 ∧
     sleepCount (request sampleCfg sampleReq
        (fun _ => .response 200 none (some (Json.obj [("success", Json.bool true)])))).1 = 0) :=
  ⟨by decide, by decide,
   (C5_success_single_attempt sampleCfg sampleReq _ 0 0 none 200 none
      (some (Json.obj [("success", Json.bool true)])) rfl (by decide) (by decide)).2 rfl⟩

/-- Claim C6: a network-level failure on attempt `retries` (zero attempts
remaining) is propagated as the raw transport failure, unchanged and not
wrapped in the `NotiBoostError` shape (the `transport` and `api`
constructors are disjoint), whereas an exhausted HTTP-level failure — a
429 on attempt `retries` — is thrown as a typed `NotiBoostError`. -/
theorem C6_exhausted_propagation (cfg : ClientCfg) (req : RequestSpec)
    (env : Nat → AttemptOutcome) (f : Nat) (le : Option ThrownError)
    (e : TransportError) (hdr : Option String) (body : Option Json) :
    (env cfg.retries = .netFailure e →
      (requestLoop cfg req env cfg.retries (f + 1) le).2 = .thrown (.transport e)) ∧
    (∀ m sc r, ThrownError.transport e ≠ ThrownError.api m sc r) ∧
    (env cfg.retries = .response 429 hdr body →
      (requestLoop cfg req env cfg.retries (f + 1) le).2 =
        .thrown (.api (errMessage (body.getD (Json.obj [])) 429) 429
                   (body.getD (Json.obj [])))) := by
  refine ⟨?_, ?_, ?_⟩
  · intro henv
    simp [requestLoop, henv]
  · intro m sc r h
    exact ThrownError.noConfusion h
  · intro henv
    simp [requestLoop, henv]

/-- Claim C6 witness: a connection reset on the final attempt of the
default budget is thrown raw. -/
theorem C6_exhausted_propagation_witness :
    ((fun _ => AttemptOutcome.netFailure (.network "ECONNRESET")) sampleCfg.retries
       = AttemptOutcome.netFailure (.network "ECONNRESET")) ∧
    (requestLoop sampleCfg sampleReq (fun _ => .netFailure (.network "ECONNRESET"))
        sampleCfg.retries (0 + 1) none).2 =
      .thrown (.transport (.network "ECONNRESET")) :=
  ⟨rfl,
   (C6_exhausted_propagation sampleCfg sampleReq _ 0 none (.network "ECONNRESET")
      none none).1 rfl⟩

/-- Claim C7: the constructor throws `'API key is required'` exactly when
the supplied API key is absent or empty (falsy), before any network
activity — `mkClient`'s codomain contains no trace events, so construction
performs no network call — and succeeds on any non-empty key, resolving
the remaining fields with their falsy-or defaults. -/
theorem C7_construction (c : NotiBoostConfig) :
    (jsFalsyStr c.apiKey = true → mkClient c = .error "API key is required") ∧
    (∀ k, c.apiKey = some k → k ≠ "" →
      mkClient c = .ok ⟨k, orElseStr c.baseURL "https://api.notiboost.com",
                         orElseNat c.timeout 30000, orElseNat c.retries 3⟩) := by
  refine ⟨?_, ?_⟩
  · intro h
    simp [mkClient, h]
  · intro k hk hne
    simp [mkClient, jsFalsyStr, hk, hne]

/-- Claim C7 witness: construction without a key throws, construction with
the non-empty key `"sk_live_123"` succeeds. -/
theorem C7_construction_witness :
    jsFalsyStr (⟨none, none, none, none⟩ : NotiBoostConfig).apiKey = true ∧
    mkClient ⟨none, none, none, none⟩ = .error "API key is required" ∧
    (⟨some "sk_live_123", none, none, none⟩ : NotiBoostConfig).apiKey = some "sk_live_123" ∧
    mkClient ⟨some "sk_live_123", none, none, none⟩ =
      .ok ⟨"sk_live_123", orElseStr none "https://api.notiboost.com",
           orElseNat none 30000, orElseNat none 3⟩ :=
  ⟨rfl,
   (C7_construction ⟨none, none, none, none⟩).1 rfl,
   rfl,
   (C7_construction ⟨some "sk_live_123", none, none, none⟩).2 "sk_live_123" rfl (by decide)⟩

/-- Claim C8 (amended): `EventsClient.ingest` fills `occurred_at` with the
current time rendered by `toISOString` — a non-empty, ISO-8601-shaped
timestamp — whenever the field is falsy, i.e. absent or the empty string
(the claim's "left unchanged if already set" therefore holds only for a
non-empty value, since the check is `!event.occurred_at`); a non-empty
`occurred_at` is left unchanged; in all cases the event is dispatched as
`POST /api/v1/events` with the (possibly updated) event as the body. -/
theorem C8_ingest_timestamp (e : Event) (now : JsDate) :
    (jsFalsyStr e.occurred_at = true →
      (ingest e now).2.2.occurred_at = some (toISOString now) ∧
      toISOString now ≠ "" ∧ isIsoTimestamp (toISOString now) = true) ∧
    (∀ s, e.occurred_at = some s → s ≠ "" → (ingest e now).2.2 = e) ∧
    (ingest e now).1 = "POST" ∧ (ingest e now).2.1 = "/api/v1/events" := by
  refine ⟨?_, ?_, rfl, rfl⟩
  · intro h
    refine ⟨?_, toISOString_ne_empty now, isIsoTimestamp_toISOString now⟩
    simp [ingest, fillOccurredAt, h]
  · intro s hs hne
    simp [ingest, fillOccurredAt, jsFalsyStr, hs, hne]

/-- Claim C8 witness: an event without `occurred_at`, ingested at the
instant 2026-01-02T03:04:05.006Z, dispatches with that non-empty ISO
timestamp filled in. -/
theorem C8_ingest_timestamp_witness :
    jsFalsyStr (⟨"order_created", "evt_002", none, "u_123", []⟩ : Event).occurred_at = true ∧
    ((ingest ⟨"order_created", "evt_002", none, "u_123", []⟩
        ⟨2026, 1, 2, 3, 4, 5, 6⟩).2.2.occurred_at =
       some (toISOString ⟨2026, 1, 2, 3, 4, 5, 6⟩) ∧
     toISOString ⟨2026, 1, 2, 3, 4, 5, 6⟩ ≠ "" ∧
     isIsoTimestamp (toISOString ⟨2026, 1, 2, 3, 4, 5, 6⟩) = true) :=
  ⟨rfl, (C8_ingest_timestamp ⟨"order_created", "evt_002", none, "u_123", []⟩
      ⟨2026, 1, 2, 3, 4, 5, 6⟩).1 rfl⟩

/-- Claim C8 counterexample: an event whose `occurred_at` is already set —
to the empty string — is not left unchanged: the falsy check overwrites it
with the current timestamp. -/
theorem C8_counterexample :
    (ingest ⟨"order_created", "evt_001", some "", "u_123", []⟩
        ⟨2026, 1, 2, 3, 4, 5, 6⟩).2.2.occurred_at = some "2026-01-02T03:04:05.006Z" ∧
    some "2026-01-02T03:04:05.006Z" ≠ (some "" : Option String) := by
  refine ⟨?_, ?_⟩
  · decide
  · decide

/-- Claim C9: a configuration that explicitly sets `retries` to 0 or
`timeout` to 0 gets the defaults (3 and 30000) instead, because the
constructor defaults by falsiness (`config.retries || 3`,
`config.timeout || 30000`); consequently every constructed client has
nonzero retries and a nonzero timeout. -/
theorem C9_falsy_defaults (c : NotiBoostConfig) (cfg' : ClientCfg)
    (hok : mkClient c = .ok cfg') :
    (c.retries = some 0 → cfg'.retries = 3) ∧
    (c.timeout = some 0 → cfg'.timeout = 30000) ∧
    0 < cfg'.retries ∧ 0 < cfg'.timeout := by
  unfold mkClient at hok
  split at hok
  · exact Except.noConfusion hok
  · injection hok with h
    subst h
    refine ⟨?_, ?_, ?_, ?_⟩
    · intro h0
      simp [orElseNat, h0]
    · intro h0
      simp [orElseNat, h0]
    · exact orElseNat_pos _ _ (by omega)
    · exact orElseNat_pos _ _ (by omega)

/-- Claim C9 witness: `retries: 0, timeout: 0` resolves to 3 retries and a
30000 ms timeout. -/
theorem C9_falsy_defaults_witness :
    mkClient ⟨some "key", none, some 0, some 0⟩ =
      .ok ⟨"key", "https://api.notiboost.com", 30000, 3⟩ ∧
    (((⟨some "key", none, some 0, some 0⟩ : NotiBoostConfig).retries = some 0 →
        (⟨"key", "https://api.notiboost.com", 30000, 3⟩ : ClientCfg).retries = 3) ∧
     ((⟨some "key", none, some 0, some 0⟩ : NotiBoostConfig).timeout = some 0 →
        (⟨"key", "https://api.notiboost.com", 30000, 3⟩ : ClientCfg).timeout = 30000) ∧
     0 < (⟨"key", "https://api.notiboost.com", 30000, 3⟩ : ClientCfg).retries ∧
     0 < (⟨"key", "https://api.notiboost.com", 30000, 3⟩ : ClientCfg).timeout) :=
  ⟨rfl, C9_falsy_defaults ⟨some "key", none, some 0, some 0⟩
     ⟨"key", "https://api.notiboost.com", 30000, 3⟩ rfl⟩

/-- Claim C10: a non-2xx response that is not retried (its status is not
429, or there are no attempts remaining) and whose body is absent or
unparseable throws a `NotiBoostError` carrying the empty object as its
response payload and the generic `"HTTP <status>"` message: the
`response.json().catch(() => ({}))` fallback applies to error responses
exactly as it does to success responses. -/
theorem C10_error_body_fallback (cfg : ClientCfg) (req : RequestSpec)
    (env : Nat → AttemptOutcome) (a f : Nat) (le : Option ThrownError)
    (status : Nat) (hdr : Option String)
    (henv : env a = .response status hdr none)
    (h2 : ¬(200 ≤ status ∧ status < 300))
    (hnr : ¬(status = 429 ∧ a < cfg.retries)) :
    (requestLoop cfg req env a (f + 1) le).2 =
      .thrown (.api ("HTTP " ++ toString status) status (Json.obj [])) := by
  simp [requestLoop, henv, h2, hnr, errMessage, jsGet]

/-- Claim C10 witness: a body-less 503 on attempt 0 throws a
`NotiBoostError` with payload the empty object and message `"HTTP 503"`. -/
theorem C10_error_body_fallback_witness :
    ¬(200 ≤ 503 ∧ 503 < 300) ∧ ¬((503 : Nat) = 429 ∧ 0 < sampleCfg.retries) ∧
    (requestLoop sampleCfg sampleReq (fun _ => .response 503 none none) 0 (2 + 1) none).2 =
      .thrown (.api ("HTTP " ++ toString 503) 503 (Json.obj [])) :=
  ⟨by decide, by decide,
   C10_error_body_fallback sampleCfg sampleReq _ 0 2 none 503 none rfl
     (by decide) (by decide)⟩

end NotiBoost
